import Mathlib

/-!
Verification of the MQTT telemetry transmitter (`src/tools/transmitter.py`)
against its natural-language specification.

The transmitter is shallowly embedded as pure Lean functions over an
explicit state record.  The Python `queue.Queue` is modelled as a `List`
whose head is the front (oldest entry): `Queue.put` appends at the tail,
`Queue.get_nowait` removes the head.  The MQTT transport is modelled by a
send oracle `send : Reading → Bool` giving the outcome the transport
reports for each publish attempt (an exception during sending is the same
`false` outcome, per the `except` branch of `_send_reading`).  The replay
loop of `_process_offline_queue` is a `while` loop in Python; it is
embedded fuel-indexed, and its termination is proved as a stabilisation
theorem.  The loop also records the trace of readings handed to
`_send_reading`, in call order, so FIFO claims can be stated.
-/

/-- A sensor reading as consumed by the transmitter.  No claim computes
with the floating-point fields, so they are carried as integers; the
transmitter itself never inspects them beyond serialisation. -/
structure Reading where
  timestamp : String
  sensor_type : String
  measurement_type : String
  value : Int
  x_position : Int
  y_position : Int
  z_position : Int
  deriving DecidableEq, Repr

/-- The configuration dict passed to `MQTTTransmitter.__init__`; a `none`
field models an absent key, so `config.get(k, d)` is `Option.getD`. -/
structure Config where
  host : Option String
  port : Option Nat
  username : Option String
  password : Option String
  base_topic : Option String
  device_id : Option String
  max_queue_size : Option Nat
  deriving Repr

/-- Python truthiness of an optional string: `None` and `""` are falsy. -/
def pyTruthy : Option String → Bool
  | none => false
  | some s => decide (s ≠ "")

/-- The mutable state of an `MQTTTransmitter` instance.  `auth_set`
records whether `username_pw_set` was invoked during `__init__`. -/
structure MQTTTransmitter where
  connected : Bool
  offline_queue : List Reading
  max_queue_size : Nat
  broker_host : String
  broker_port : Nat
  username : Option String
  password : Option String
  base_topic : String
  device_id : String
  auth_set : Bool
  deriving Repr

/-- `MQTTTransmitter.__init__` (transmitter.py lines 10-35): the queue
starts empty, `max_queue_size` is assigned the literal 1000, connection
settings are read from the config with their defaults, and credentials
are installed iff `self.username and self.password` is truthy. -/
def MQTTTransmitter.init (config : Config) : MQTTTransmitter :=
  { connected := false
    offline_queue := []
    max_queue_size := 1000
    broker_host := config.host.getD "localhost"
    broker_port := config.port.getD 1883
    username := config.username
    password := config.password
    base_topic := config.base_topic.getD "sensors"
    device_id := config.device_id.getD "sensor_device_1"
    auth_set := pyTruthy config.username && pyTruthy config.password }

/-- `_queue_if_offline` (lines 123-138).  Returns the updated state and
the Python return value.  When disconnected and below capacity the
reading is appended (`put`); at capacity, `get_nowait` first removes the
head — on an empty queue it raises and the bare `except: pass` swallows
the `put` as well, leaving the queue unchanged.  When connected it
returns `False` without touching the queue. -/
def queue_if_offline (t : MQTTTransmitter) (r : Reading) :
    MQTTTransmitter × Bool :=
  if !t.connected then
    if t.offline_queue.length < t.max_queue_size then
      ({ t with offline_queue := t.offline_queue ++ [r] }, true)
    else
      match t.offline_queue with
      | [] => (t, true)
      | _ :: rest => ({ t with offline_queue := rest ++ [r] }, true)
  else
    (t, false)

/-- `_send_reading` (lines 89-120): builds the topic and payload and
publishes; the outcome the transport reports is the oracle's verdict,
and the transmitter state is not modified. -/
def send_reading (send : Reading → Bool) (r : Reading) : Bool :=
  send r

/-- `transmit_reading` (lines 77-80): queue the reading if offline,
otherwise attempt a direct send. -/
def transmit_reading (send : Reading → Bool) (t : MQTTTransmitter)
    (r : Reading) : MQTTTransmitter × Bool :=
  let q := queue_if_offline t r
  if !q.2 then (q.1, send_reading send r) else (q.1, true)

/-- `transmit_batch` (lines 82-87): run `transmit_reading` on each
reading in list order, threading the state, and count `True` returns. -/
def transmit_batch (send : Reading → Bool) (t : MQTTTransmitter) :
    List Reading → MQTTTransmitter × Nat
  | [] => (t, 0)
  | r :: rs =>
    let step := transmit_reading send t r
    let rest := transmit_batch send step.1 rs
    (rest.1, (if step.2 then 1 else 0) + rest.2)

/-- Result of one replay pass: final state, the `processed` counter, and
the trace of readings handed to `_send_reading`, in call order. -/
structure ReplayResult where
  state : MQTTTransmitter
  processed : Nat
  sent : List Reading
  deriving Repr

/-- The `while` loop of `_process_offline_queue` (lines 144-154),
fuel-indexed.  Each iteration requires the queue non-empty and the flag
connected; it pops the head and attempts a send.  On success it loops
with `processed` incremented; on failure it puts the reading back (at
the tail, which is all `Queue.put` can do) and breaks. -/
def replayLoop (send : Reading → Bool) :
    Nat → MQTTTransmitter → Nat → List Reading → ReplayResult
  | 0, t, processed, sent => ⟨t, processed, sent⟩
  | fuel + 1, t, processed, sent =>
    if t.connected then
      match t.offline_queue with
      | [] => ⟨t, processed, sent⟩
      | r :: rest =>
        if send_reading send r then
          replayLoop send fuel { t with offline_queue := rest }
            (processed + 1) (sent ++ [r])
        else
          ⟨{ t with offline_queue := rest ++ [r] }, processed, sent ++ [r]⟩
    else
      ⟨t, processed, sent⟩

/-- `_process_offline_queue` (lines 140-156): run the replay loop; a fuel
of the initial queue length is enough (proved below as stabilisation). -/
def process_offline_queue (send : Reading → Bool) (t : MQTTTransmitter) :
    ReplayResult :=
  replayLoop send t.offline_queue.length t 0 []

/-- `_on_connect` (lines 37-45): on reason code 0 set the connected flag
and drain the queue; otherwise clear the flag.  The second component
counts how many times the replay processor was triggered by this event. -/
def on_connect (send : Reading → Bool) (t : MQTTTransmitter) (rc : Nat) :
    MQTTTransmitter × Nat :=
  if rc = 0 then
    (((process_offline_queue send { t with connected := true })).state, 1)
  else
    ({ t with connected := false }, 0)

/-- `_on_disconnect` (lines 47-49): unconditionally clear the flag. -/
def on_disconnect (t : MQTTTransmitter) : MQTTTransmitter :=
  { t with connected := false }

/-- `get_status` (lines 159-165), restricted to the fields claims use. -/
structure TransmitterStatus where
  connected : Bool
  queue_size : Nat
  device_id : String
  deriving Repr

def get_status (t : MQTTTransmitter) : TransmitterStatus :=
  { connected := t.connected
    queue_size := t.offline_queue.length
    device_id := t.device_id }

/-- The queue update performed by one offline enqueue, as a list
function: append below capacity; at capacity drop the head first — on an
empty at-capacity queue (only possible with capacity 0) the raised
`Empty` skips the append too.  Proved below to characterise
`queue_if_offline`. -/
def pushB (max : Nat) (q : List Reading) (r : Reading) : List Reading :=
  if q.length < max then q ++ [r]
  else
    match q with
    | [] => []
    | _ :: rest => rest ++ [r]

/-- Spec-level characterisation of a batch: the list of boolean returns
of the successive `transmit_reading` calls, in call order. -/
def transmitResults (send : Reading → Bool) (t : MQTTTransmitter) :
    List Reading → List Bool
  | [] => []
  | r :: rs =>
    let step := transmit_reading send t r
    step.2 :: transmitResults send step.1 rs

/-! ### Concrete fixtures used by witnesses and counterexamples -/

def rA : Reading := ⟨"t1", "temp", "temperature", 21, 0, 0, 0⟩

def rB : Reading := ⟨"t2", "pressure", "pressure", 1012, 0, 0, 0⟩

def rC : Reading := ⟨"t3", "temp", "temperature", 22, 0, 0, 0⟩

def sendAlwaysTrue : Reading → Bool := fun _ => true

def sendAlwaysFalse : Reading → Bool := fun _ => false

def cfgEmpty : Config := ⟨none, none, none, none, none, none, none⟩

def cfgMax2 : Config := ⟨none, none, none, none, none, none, some 2⟩

def tBase : MQTTTransmitter := MQTTTransmitter.init cfgEmpty

def tOffline2 : MQTTTransmitter := { tBase with max_queue_size := 2 }

def tFull2 : MQTTTransmitter :=
  { tBase with max_queue_size := 2, offline_queue := [rA, rB] }

def tConn : MQTTTransmitter :=
  { tBase with connected := true, offline_queue := [rA, rB] }

/-! ### Helper lemmas -/

lemma pyTruthy_iff (o : Option String) :
    pyTruthy o = true ↔ ∃ s, o = some s ∧ s ≠ "" := by
  cases o with
  | none => simp [pyTruthy]
  | some s => simp [pyTruthy]

lemma queue_if_offline_offline (t : MQTTTransmitter) (r : Reading)
    (h : t.connected = false) :
    queue_if_offline t r =
      ({ t with offline_queue := pushB t.max_queue_size t.offline_queue r },
        true) := by
  obtain ⟨c, q, m, bh, bp, un, pw, bt, d, au⟩ := t
  simp only at h
  subst h
  simp only [queue_if_offline, pushB, Bool.not_false, if_true]
  split
  · rfl
  · cases q with
    | nil => rfl
    | cons a rest => rfl

lemma transmit_reading_offline (send : Reading → Bool) (t : MQTTTransmitter)
    (r : Reading) (h : t.connected = false) :
    transmit_reading send t r =
      ({ t with offline_queue := pushB t.max_queue_size t.offline_queue r },
        true) := by
  unfold transmit_reading
  rw [queue_if_offline_offline t r h]
  rfl

lemma pushB_length (max : Nat) (q : List Reading) (r : Reading)
    (h : q.length ≤ max) : (pushB max q r).length ≤ max := by
  unfold pushB
  rcases Nat.lt_or_ge q.length max with hlt | hge
  · rw [if_pos hlt]
    simp
    omega
  · rw [if_neg (by omega)]
    cases q with
    | nil => simp
    | cons a rest =>
      simp at h ⊢
      omega

lemma pushB_eq_drop (max : Nat) (q : List Reading) (r : Reading)
    (h : q.length ≤ max) :
    pushB max q r = (q ++ [r]).drop ((q ++ [r]).length - max) := by
  unfold pushB
  rcases Nat.lt_or_ge q.length max with hlt | hge
  · rw [if_pos hlt]
    have h0 : (q ++ [r]).length - max = 0 := by simp; omega
    rw [h0, List.drop_zero]
  · rw [if_neg (by omega)]
    have hq : q.length = max := Nat.le_antisymm h hge
    cases q with
    | nil =>
      simp at hq
      simp [← hq]
    | cons a rest =>
      have h1 : ((a :: rest) ++ [r]).length - max = 1 := by simp at hq ⊢; omega
      rw [h1, List.drop_one]
      simp

lemma foldl_pushB (max : Nat) :
    ∀ (rs q : List Reading), q.length ≤ max →
      List.foldl (pushB max) q rs = (q ++ rs).drop ((q ++ rs).length - max) := by
  intro rs
  induction rs with
  | nil =>
    intro q h
    simp only [List.foldl_nil, List.append_nil]
    have h0 : q.length - max = 0 := by omega
    rw [h0, List.drop_zero]
  | cons r rs ih =>
    intro q h
    rw [List.foldl_cons, ih (pushB max q r) (pushB_length max q r h),
      pushB_eq_drop max q r h]
    rw [← List.drop_append_of_le_length
      (show (q ++ [r]).length - max ≤ (q ++ [r]).length by omega)]
    rw [List.drop_drop]
    have hl : (q ++ [r]) ++ rs = q ++ r :: rs := by simp
    rw [hl]
    congr 1
    simp only [List.length_drop, List.length_append, List.length_cons,
      List.length_nil]
    omega

lemma transmit_batch_offline (send : Reading → Bool) :
    ∀ (rs : List Reading) (t : MQTTTransmitter), t.connected = false →
      transmit_batch send t rs =
        ({ t with offline_queue :=
            List.foldl (pushB t.max_queue_size) t.offline_queue rs },
          rs.length) := by
  intro rs
  induction rs with
  | nil =>
    intro t h
    rfl
  | cons r rs ih =>
    intro t h
    simp only [transmit_batch]
    rw [transmit_reading_offline send t r h]
    rw [ih { t with offline_queue := pushB t.max_queue_size t.offline_queue r }
      (by simpa using h)]
    simp [List.foldl_cons, Nat.add_comm]

lemma transmit_batch_count (send : Reading → Bool) :
    ∀ (rs : List Reading) (t : MQTTTransmitter),
      (transmit_batch send t rs).2 = (transmitResults send t rs).count true := by
  intro rs
  induction rs with
  | nil => intro t; rfl
  | cons r rs ih =>
    intro t
    simp only [transmit_batch, transmitResults, List.count_cons]
    cases hstep : (transmit_reading send t r).2 <;>
      simp [hstep, ih, Nat.add_comm]

lemma replayLoop_not_connected (send : Reading → Bool) (fuel : Nat)
    (t : MQTTTransmitter) (p : Nat) (s : List Reading)
    (h : t.connected = false) :
    replayLoop send fuel t p s = ⟨t, p, s⟩ := by
  cases fuel <;> simp [replayLoop, h]

lemma replayLoop_connected (send : Reading → Bool) :
    ∀ (fuel : Nat) (t : MQTTTransmitter) (p : Nat) (s : List Reading),
      (replayLoop send fuel t p s).state.connected = t.connected := by
  intro fuel
  induction fuel with
  | zero => intro t p s; rfl
  | succ f ih =>
    intro t p s
    by_cases hc : t.connected = true
    · rcases hq : t.offline_queue with _ | ⟨r, rest⟩
      · simp [replayLoop, hc, hq]
      · by_cases hs : send_reading send r = true
        · simp only [replayLoop, hc, hq, hs, if_true]
          rw [ih]
        · simp [replayLoop, hc, hq, hs]
    · have h : t.connected = false := by simpa using hc
      rw [replayLoop_not_connected send (f + 1) t p s h]

lemma replayLoop_all_success (send : Reading → Bool) :
    ∀ (q : List Reading) (t : MQTTTransmitter) (p : Nat) (s : List Reading),
      t.connected = true → t.offline_queue = q →
      (∀ r ∈ q, send r = true) →
      replayLoop send q.length t p s =
        ⟨{ t with offline_queue := [] }, p + q.length, s ++ q⟩ := by
  intro q
  induction q with
  | nil =>
    intro t p s hc hq _
    obtain ⟨c, qq, m, bh, bp, un, pw, bt, d, au⟩ := t
    simp only at hq
    subst hq
    simp [replayLoop]
  | cons r rest ih =>
    intro t p s hc hq hall
    have hr : send_reading send r = true := hall r (by simp)
    simp only [List.length_cons, replayLoop, hc, hq, hr, if_true]
    rw [ih { t with connected := true, offline_queue := rest } (p + 1)
      (s ++ [r]) rfl rfl (fun x hx => hall x (by simp [hx]))]
    simp only [ReplayResult.mk.injEq, true_and, and_true, eq_self_iff_true]
    refine ⟨by omega, by simp⟩

lemma replayLoop_stable (send : Reading → Bool) :
    ∀ (q : List Reading) (t : MQTTTransmitter) (p : Nat) (s : List Reading)
      (fuel : Nat), t.offline_queue = q → q.length ≤ fuel →
      replayLoop send fuel t p s = replayLoop send q.length t p s := by
  intro q
  induction q with
  | nil =>
    intro t p s fuel hq _
    cases fuel with
    | zero => rfl
    | succ f =>
      by_cases hc : t.connected = true
      · simp [replayLoop, hc, hq]
      · have h : t.connected = false := by simpa using hc
        rw [replayLoop_not_connected send (f + 1) t p s h,
          replayLoop_not_connected send ([] : List Reading).length t p s h]
  | cons r rest ih =>
    intro t p s fuel hq hf
    cases fuel with
    | zero => simp at hf
    | succ f =>
      by_cases hc : t.connected = true
      · by_cases hs : send_reading send r = true
        · simp only [replayLoop, hc, hq, hs, if_true, List.length_cons]
          exact ih { t with connected := true, offline_queue := rest } (p + 1)
            (s ++ [r]) f rfl (by simpa using hf)
        · simp [replayLoop, hc, hq, hs]
      · have h : t.connected = false := by simpa using hc
        rw [replayLoop_not_connected send (f + 1) t p s h,
          replayLoop_not_connected send (r :: rest).length t p s h]

/-! ### Claims -/

/-- C1 (counterexample): the claim says a failed replay send leaves the
failed reading at the **front** of the queue.  With the connected
transmitter `tConn` holding `[rA, rB]` and a transport that fails every
send, the replay pass pops `rA`, fails, and `Queue.put` re-appends it at
the **tail**: the resulting queue is `[rB, rA]`, whose front is `rB`,
not the failed reading `rA`. -/
theorem C1_replay_failure_head_counterexample :
    tConn.offline_queue.head? = some rA ∧
    (process_offline_queue sendAlwaysFalse tConn).state.offline_queue.head? ≠
      some rA ∧
    (process_offline_queue sendAlwaysFalse tConn).state.offline_queue =
      [rB, rA] := by
  refine ⟨rfl, ?_, rfl⟩
  decide

/-- C1 (amended): if during a replay pass the send of the head reading
fails, the reading is pushed back to the **tail** of the queue, and the
replay loop terminates immediately without attempting later entries in
that pass (the send trace is exactly `[r]` and `processed` is 0); the
failed reading is therefore at the front again only when the queue held
no other entry. -/
theorem C1_replay_failure_pushback_tail (send : Reading → Bool)
    (t : MQTTTransmitter) (r : Reading) (rest : List Reading)
    (hc : t.connected = true) (hq : t.offline_queue = r :: rest)
    (hs : send r = false) :
    process_offline_queue send t =
      ⟨{ t with offline_queue := rest ++ [r] }, 0, [r]⟩ := by
  simp only [process_offline_queue, hq, List.length_cons]
  simp [replayLoop, hc, hq, send_reading, hs]

theorem C1_replay_failure_pushback_tail_witness :
    process_offline_queue sendAlwaysFalse tConn =
      ⟨{ tConn with offline_queue := [rB, rA] }, 0, [rA]⟩ :=
  C1_replay_failure_pushback_tail sendAlwaysFalse tConn rA [rB]
    (by decide) (by decide) rfl

/-- C2 (counterexample): the claim says the offline-queue capacity bound
equals the configuration's `max_queue_size` when one is supplied; but a
transmitter constructed with `max_queue_size = 2` still has capacity
bound 1000, because `__init__` assigns the literal 1000 and never reads
the key. -/
theorem C2_max_queue_size_counterexample :
    cfgMax2.max_queue_size = some 2 ∧
    (MQTTTransmitter.init cfgMax2).max_queue_size ≠ 2 := by
  decide

/-- C2 (amended): the transmitter's offline-queue capacity bound is the
constant 1000 for every configuration; the configuration's
`max_queue_size` entry is ignored. -/
theorem C2_max_queue_size_hardcoded (config : Config) :
    (MQTTTransmitter.init config).max_queue_size = 1000 := rfl

/-- C4: whenever the transmitter is not connected (and capacity is
positive, as it always is with the hardcoded 1000), `transmit_reading`
returns `true` and the reading ends up as the newest (tail) entry of the
offline queue — also when the queue is already at capacity, in which
case the oldest entry is evicted and the call still returns `true`. -/
theorem C4_offline_accept (send : Reading → Bool) (t : MQTTTransmitter)
    (r : Reading) (h : t.connected = false) (hmax : 0 < t.max_queue_size) :
    (transmit_reading send t r).2 = true ∧
    ((transmit_reading send t r).1.offline_queue).getLast? = some r ∧
    (t.max_queue_size ≤ t.offline_queue.length →
      (transmit_reading send t r).1.offline_queue =
        t.offline_queue.tail ++ [r]) := by
  rw [transmit_reading_offline send t r h]
  refine ⟨rfl, ?_, ?_⟩
  · show (pushB t.max_queue_size t.offline_queue r).getLast? = some r
    unfold pushB
    rcases Nat.lt_or_ge t.offline_queue.length t.max_queue_size with hlt | hge
    · rw [if_pos hlt]
      exact List.getLast?_concat _
    · rw [if_neg (by omega)]
      cases hq : t.offline_queue with
      | nil =>
        rw [hq] at hge
        simp at hge
        omega
      | cons a rest => exact List.getLast?_concat _
  · intro hcap
    show pushB t.max_queue_size t.offline_queue r =
      t.offline_queue.tail ++ [r]
    unfold pushB
    rw [if_neg (by omega)]
    rcases hq : t.offline_queue with _ | ⟨a, rest⟩
    · rw [hq] at hcap
      simp at hcap
      omega
    · rfl

theorem C4_offline_accept_witness :
    (transmit_reading sendAlwaysFalse tFull2 rC).2 = true ∧
    ((transmit_reading sendAlwaysFalse tFull2 rC).1.offline_queue).getLast? =
      some rC ∧
    (transmit_reading sendAlwaysFalse tFull2 rC).1.offline_queue =
      [rB, rC] := by
  have h := C4_offline_accept sendAlwaysFalse tFull2 rC (by decide) (by decide)
  exact ⟨h.1, h.2.1, h.2.2 (by decide)⟩

/-- C6: while connected, a send the transport reports as failed makes
`transmit_reading` return `false`, and the reading is not requeued: the
offline queue is exactly what it was before the call. -/
theorem C6_connected_failure_drop (send : Reading → Bool)
    (t : MQTTTransmitter) (r : Reading) (hc : t.connected = true)
    (hs : send r = false) :
    (transmit_reading send t r).2 = false ∧
    (transmit_reading send t r).1.offline_queue = t.offline_queue := by
  unfold transmit_reading queue_if_offline
  rw [hc]
  simp [send_reading, hs]

theorem C6_connected_failure_drop_witness :
    (transmit_reading sendAlwaysFalse tConn rC).2 = false ∧
    (transmit_reading sendAlwaysFalse tConn rC).1.offline_queue =
      tConn.offline_queue :=
  C6_connected_failure_drop sendAlwaysFalse tConn rC (by decide) rfl

/-- C3: offline enqueues keep the queue bounded.  (a) Starting from any
queue within capacity, a batch of offline `transmit_reading` calls never
pushes the length above `max_queue_size`; (b) when an enqueue hits a full
(non-empty) queue, exactly the oldest entry is removed before the append;
(c) after more than `max_queue_size` enqueues into an initially empty
queue, the queue holds exactly the most recently enqueued
`max_queue_size` readings in insertion order. -/
theorem C3_bounded_queue_invariant (send : Reading → Bool)
    (t u : MQTTTransmitter) (r : Reading) (rs : List Reading)
    (ht : t.connected = false) (hu : u.connected = false)
    (hlen : t.offline_queue.length ≤ t.max_queue_size)
    (hfull : u.offline_queue.length = u.max_queue_size)
    (hne : u.offline_queue ≠ []) :
    (transmit_batch send t rs).1.offline_queue.length ≤ t.max_queue_size ∧
    (transmit_reading send u r).1.offline_queue =
      u.offline_queue.tail ++ [r] ∧
    (t.offline_queue = [] → t.max_queue_size < rs.length →
      (transmit_batch send t rs).1.offline_queue =
        rs.drop (rs.length - t.max_queue_size) ∧
      (transmit_batch send t rs).1.offline_queue.length =
        t.max_queue_size) := by
  have hb := transmit_batch_offline send rs t ht
  refine ⟨?_, ?_, ?_⟩
  · rw [hb]
    show (List.foldl (pushB t.max_queue_size) t.offline_queue rs).length ≤
      t.max_queue_size
    rw [foldl_pushB t.max_queue_size rs t.offline_queue hlen]
    simp only [List.length_drop]
    omega
  · rw [transmit_reading_offline send u r hu]
    show pushB u.max_queue_size u.offline_queue r =
      u.offline_queue.tail ++ [r]
    unfold pushB
    rw [if_neg (by omega)]
    rcases hq : u.offline_queue with _ | ⟨a, rest⟩
    · exact absurd hq hne
    · rfl
  · intro hq0 hlt
    rw [hb]
    show List.foldl (pushB t.max_queue_size) t.offline_queue rs =
        rs.drop (rs.length - t.max_queue_size) ∧
      (List.foldl (pushB t.max_queue_size) t.offline_queue rs).length =
        t.max_queue_size
    rw [hq0, foldl_pushB t.max_queue_size rs []
      (by simp : ([] : List Reading).length ≤ t.max_queue_size)]
    constructor
    · simp
    · simp only [List.nil_append, List.length_drop]
      omega

theorem C3_bounded_queue_invariant_witness :
    (transmit_batch sendAlwaysTrue tOffline2 [rA, rB, rC]).1.offline_queue.length ≤ 2 ∧
    (transmit_reading sendAlwaysTrue tFull2 rC).1.offline_queue = [rB, rC] ∧
    (transmit_batch sendAlwaysTrue tOffline2 [rA, rB, rC]).1.offline_queue =
      [rB, rC] := by
  have h := C3_bounded_queue_invariant sendAlwaysTrue tOffline2 tFull2 rC
    [rA, rB, rC] (by decide) (by decide) (by decide) (by decide) (by decide)
  exact ⟨h.1, h.2.1, (h.2.2 rfl (by decide)).1⟩

/-- C5: `transmit_batch` calls `transmit_reading` on each element in
list order and returns the number of those calls that returned `true`
(the `count true` of the in-order result trace); in particular, while
disconnected every reading is absorbed by the queue (drop-oldest leaves
room by construction) and the count equals the batch length. -/
theorem C5_batch_count (send : Reading → Bool) (t : MQTTTransmitter)
    (rs : List Reading) :
    (transmit_batch send t rs).2 = (transmitResults send t rs).count true ∧
    (t.connected = false → (transmit_batch send t rs).2 = rs.length) := by
  refine ⟨transmit_batch_count send rs t, fun h => ?_⟩
  rw [transmit_batch_offline send rs t h]

theorem C5_batch_count_witness :
    (transmit_batch sendAlwaysFalse tOffline2 [rA, rB, rC]).2 =
      (transmitResults sendAlwaysFalse tOffline2 [rA, rB, rC]).count true ∧
    (transmit_batch sendAlwaysFalse tOffline2 [rA, rB, rC]).2 = 3 := by
  have h := C5_batch_count sendAlwaysFalse tOffline2 [rA, rB, rC]
  exact ⟨h.1, h.2 (by decide)⟩

/-- C7: if the transmitter is connected and every buffered reading sends
successfully, the replay pass pops and sends the entries exactly in
insertion (FIFO) order (the send trace equals the initial queue), counts
each of them as processed, and leaves the queue empty; and when the
state is not connected the loop body never runs at all. -/
theorem C7_replay_drains_fifo (send : Reading → Bool)
    (t u : MQTTTransmitter) (hc : t.connected = true)
    (hall : ∀ r ∈ t.offline_queue, send r = true)
    (hu : u.connected = false) :
    process_offline_queue send t =
      ⟨{ t with offline_queue := [] }, t.offline_queue.length,
        t.offline_queue⟩ ∧
    process_offline_queue send u = ⟨u, 0, []⟩ := by
  constructor
  · simp only [process_offline_queue]
    rw [replayLoop_all_success send t.offline_queue t 0 [] hc rfl hall]
    simp
  · simp only [process_offline_queue]
    rw [replayLoop_not_connected send u.offline_queue.length u 0 [] hu]

theorem C7_replay_drains_fifo_witness :
    process_offline_queue sendAlwaysTrue tConn =
      ⟨{ tConn with offline_queue := [] }, 2, [rA, rB]⟩ ∧
    process_offline_queue sendAlwaysTrue tFull2 = ⟨tFull2, 0, []⟩ :=
  C7_replay_drains_fifo sendAlwaysTrue tConn tFull2 (by decide) (by decide)
    (by decide)

/-- C8: the connect callback with reason code 0 sets the state to
connected and triggers the replay processor exactly once; any non-zero
reason code leaves the state disconnected and does not trigger replay;
the disconnect callback clears the connected flag unconditionally. -/
theorem C8_connect_disconnect_callbacks (send : Reading → Bool)
    (t : MQTTTransmitter) (rc : Nat) :
    (on_connect send t rc).2 = (if rc = 0 then 1 else 0) ∧
    (on_connect send t rc).1.connected = (if rc = 0 then true else false) ∧
    (on_disconnect t).connected = false := by
  by_cases h : rc = 0
  · subst h
    refine ⟨rfl, ?_, rfl⟩
    show (process_offline_queue send
        { t with connected := true }).state.connected =
      (if (0 : Nat) = 0 then true else false)
    simp only [process_offline_queue]
    rw [replayLoop_connected send]
    simp
  · exact ⟨by simp [on_connect, h], by simp [on_connect, h], rfl⟩

/-- C9: credentials are installed on the broker session iff both the
configured username and password are present and non-empty (Python
truthiness); in particular an empty-string password with a non-empty
username leaves authentication disabled. -/
theorem C9_auth_iff_truthy (c : Config) :
    ((MQTTTransmitter.init c).auth_set = true ↔
      ((∃ u, c.username = some u ∧ u ≠ "") ∧
        (∃ p, c.password = some p ∧ p ≠ ""))) ∧
    (MQTTTransmitter.init
      ⟨none, none, some "user", some "", none, none, none⟩).auth_set =
        false := by
  constructor
  · show (pyTruthy c.username && pyTruthy c.password) = true ↔ _
    rw [Bool.and_eq_true, pyTruthy_iff, pyTruthy_iff]
  · rfl

/-- C10: the replay pass terminates for every finite queue and every
send-outcome oracle: running the loop with any fuel at least the initial
queue length gives the same result as running it with fuel exactly the
queue length — i.e. the `while` loop of `_process_offline_queue` needs
at most one iteration per initially buffered entry. -/
theorem C10_replay_terminates (send : Reading → Bool)
    (t : MQTTTransmitter) (p : Nat) (s : List Reading) (fuel : Nat)
    (h : t.offline_queue.length ≤ fuel) :
    replayLoop send fuel t p s =
      replayLoop send t.offline_queue.length t p s ∧
    replayLoop send fuel t 0 [] = process_offline_queue send t := by
  constructor
  · exact replayLoop_stable send t.offline_queue t p s fuel rfl h
  · simp only [process_offline_queue]
    exact replayLoop_stable send t.offline_queue t 0 [] fuel rfl h

theorem C10_replay_terminates_witness :
    replayLoop sendAlwaysFalse 5 tConn 7 [rC] =
      replayLoop sendAlwaysFalse 2 tConn 7 [rC] ∧
    replayLoop sendAlwaysFalse 5 tConn 0 [] =
      process_offline_queue sendAlwaysFalse tConn :=
  C10_replay_terminates sendAlwaysFalse tConn 7 [rC] 5 (by decide)
